import Mathlib

/-!
Shallow embedding of the carbon-footprint estimation engine of this
repository (`app/integrations/climatiq.py` and `app/calculator.py`),
together with theorems settling the specification claims about it.

Modelling conventions:
* Python floats are modelled as exact rationals (`ℚ`); float literals are
  transcribed as exact decimal fractions (e.g. `2.2046226218` becomes
  `22046226218/10000000000`).
* Python strings are Lean `String`s; `str.lower()`, `str.strip()`,
  `str.replace(" ", "")`, the substring test `a in b` and
  `s.split("/")[-1]` are given explicit executable models below
  (`pyLower`, `pyStrip`, `removeSpaces`, `strHasSub`, `afterLastSlash`).
* The module-level mutable cache (a dict from keys to `(timestamp, doc)`)
  is threaded explicitly as an association list; `time.time()` is an
  explicit `now : ℚ` argument.
* Network effects (`requests.get` on the search endpoint, `requests.post`
  on the estimate endpoint) are an explicit oracle.  `EnvF` is the full
  model: both endpoints return `Except Unit _`, where `Except.error`
  models a raised exception (non-2xx status via `raise_for_status`, or a
  malformed body), which the source propagates uncaught on the search
  path and re-raises on the estimate path.  `Env` is its restriction to
  runs whose search calls succeed (the fetch returns a result list
  directly); it is used for the claims whose scenarios presuppose
  successful search responses (cache behaviour, pass structure,
  selection, conversion).
* Result dicts from the provider are modelled as `Doc` records holding
  the fields the code reads (`activity_id`, `unit_type`, `unit`); a
  record models a non-empty (truthy) dict, and the truthiness test
  `d.get("unit")` is `unit_truthy`.
* `note: app/utils/units.py` is absent from the repository, so the
  `except`-branch fallback definitions inside `climatiq.py` (lines 12-71)
  are the authoritative unit system; they are what is embedded here.
-/

namespace Climatiq

/-- Model of Python `str.lower()` (ASCII case folding, as used on the
unit and name strings appearing in this code base). -/
def pyLower (s : String) : String := ⟨s.data.map Char.toLower⟩

/-- Auxiliary for `pyStrip`: drop whitespace from both ends of a char list. -/
def stripList (l : List Char) : List Char :=
  ((l.dropWhile Char.isWhitespace).reverse.dropWhile Char.isWhitespace).reverse

/-- Model of Python `str.strip()`: remove leading and trailing whitespace. -/
def pyStrip (s : String) : String := ⟨stripList s.data⟩

/-- Model of Python `str.replace(" ", "")`: delete every space character. -/
def removeSpaces (s : String) : String := ⟨s.data.filter (fun c => c ≠ ' ')⟩

/-- Model of the Python substring test `needle in hay`. -/
def strHasSub (hay needle : String) : Bool :=
  let h := hay.data
  let n := needle.data
  (List.range (h.length + 1)).any (fun i => decide ((h.drop i).take n.length = n))

/-- Model of Python `s.split("/")[-1]`: the segment after the last slash
(the whole string when no slash occurs). -/
def afterLastSlash (s : String) : String :=
  ⟨(s.data.reverse.takeWhile (fun c => c ≠ '/')).reverse⟩

/- Unit system: the fallback definitions of `app/integrations/climatiq.py`
   lines 14-71 (`MASS`, `VOLUME`, `COUNT`, `ALIASES`, `TO_BASE`,
   `FROM_BASE`, `normalize`, `family`, `convert_qty`). -/

/-- The `MASS` unit set (a Python set; membership order is irrelevant). -/
def MASS : List String := ["lb", "kg", "g", "oz"]

/-- The `VOLUME` unit set. -/
def VOLUME : List String := ["liter", "l", "ml", "gallon", "gal"]

/-- The `COUNT` unit set. -/
def COUNT : List String := ["each"]

/-- The `ALIASES` dict, in declaration order. -/
def ALIASES : List (String × String) :=
  [("lbs", "lb"), ("pound", "lb"), ("pounds", "lb"),
   ("l", "liter"), ("litre", "liter"), ("liters", "liter"), ("litres", "liter"),
   ("gal", "gallon"), ("gals", "gallon"),
   ("item", "each"), ("items", "each")]

/-- The `TO_BASE` dict: conversion factors into the per-family base unit. -/
def TO_BASE : List ((String × String) × ℚ) :=
  [(("lb", "lb"), 1),
   (("kg", "lb"), 22046226218/10000000000),
   (("g",  "lb"), 22046226/10000000000),
   (("oz", "lb"), 1/16),
   (("liter",  "liter"), 1),
   (("l",      "liter"), 1),
   (("ml",     "liter"), 1/1000),
   (("gallon", "liter"), 378541/100000),
   (("gal",    "liter"), 378541/100000),
   (("each", "each"), 1)]

/-- The `FROM_BASE` dict: conversion factors out of the per-family base unit. -/
def FROM_BASE : List ((String × String) × ℚ) :=
  [(("lb", "lb"), 1),
   (("lb", "kg"), 45359237/100000000),
   (("lb", "g"),  45359237/100000),
   (("lb", "oz"), 16),
   (("liter", "liter"), 1),
   (("liter", "ml"),    1000),
   (("liter", "gallon"), 1/(378541/100000)),
   (("liter", "gal"),    1/(378541/100000)),
   (("each", "each"), 1)]

/-- `normalize(u)` (climatiq.py lines 46-49): empty or missing input gives
"each"; otherwise strip, lowercase and resolve through `ALIASES`,
returning the processed string itself when it is not an alias key. -/
def normalize (u : Option String) : String :=
  match u with
  | none => "each"
  | some s =>
    if s = "" then "each"
    else
      let t := pyLower (pyStrip s)
      (ALIASES.lookup t).getD t

/-- `family(u)` (climatiq.py lines 50-55): classify a unit into
"mass" / "volume" / "count" / "other" after normalisation. -/
def family (u : String) : String :=
  let n := normalize (some u)
  if n ∈ MASS then "mass"
  else if n ∈ VOLUME then "volume"
  else if n ∈ COUNT then "count"
  else "other"

/-- `convert_qty(qty, src_unit, dst_unit)` (climatiq.py lines 56-71):
same-family conversion through the per-family base unit (lb / liter /
each); `none` models the Python `None` returned when the families differ
or a conversion factor is missing. -/
def convert_qty (qty : ℚ) (src_unit dst_unit : String) : Option (ℚ × String) :=
  let s := normalize (some src_unit)
  let d := normalize (some dst_unit)
  let fs := family s
  let fd := family d
  if fs ≠ fd then none
  else if fs = "mass" then
    match TO_BASE.lookup (s, "lb"), FROM_BASE.lookup ("lb", d) with
    | some to_lb, some from_lb => some (qty * to_lb * from_lb, d)
    | _, _ => none
  else if fs = "volume" then
    match TO_BASE.lookup (s, "liter"), FROM_BASE.lookup ("liter", d) with
    | some to_l, some from_l => some (qty * to_l * from_l, d)
    | _, _ => none
  else if fs = "count" then some (qty, d)
  else none

example : normalize (some " LBS ") = "lb" := by decide
example : normalize (some "banana") = "banana" := by decide
example : family "gal" = "volume" := by decide
example : family "each" = "count" := by decide
example : convert_qty 3 "oz" "oz" = some (3 * (1/16) * 16, "oz") := rfl
example : convert_qty 5 "kg" "each" = none := by decide

/-- `_norm_unit_type(ut)` (climatiq.py lines 124-130): map a provider
unit-type string onto the parameter families "weight" / "volume" /
"number", passing anything else through lowercased and stripped. -/
def norm_unit_type (ut : Option String) : String :=
  let u := pyLower (pyStrip (ut.getD ""))
  if u = "weight" ∨ u = "mass" then "weight"
  else if u = "volume" then "volume"
  else if u = "items" ∨ u = "count" ∨ u = "units" ∨ u = "number" then "number"
  else u

/-- The tail of `_parse_factor_unit` (climatiq.py lines 141-144), acting on
the already-tokenised unit `u4` and the normalised family `fam`: replace
an unusable token by the family default, and resolve the final
`u or (...)` expression (an empty token falls back by family). -/
def parse_unit_default (u4 fam : String) : String :=
  if fam = "weight" ∧ ¬(u4 = "kg" ∨ u4 = "lb" ∨ u4 = "g" ∨ u4 = "oz") then "kg"
  else if fam = "volume" ∧ ¬(u4 = "liter" ∨ u4 = "ml" ∨ u4 = "gallon") then "liter"
  else if u4 ≠ "" then u4
  else if fam = "weight" then "kg"
  else if fam = "volume" then "liter"
  else "each"

/-- `_parse_factor_unit(raw, unit_type)` (climatiq.py lines 132-144): strip,
lowercase and despace the raw unit, take the segment after the last "/",
map synonym groups, then default by family for unusable tokens. -/
def parse_factor_unit (raw : Option String) (unit_type : Option String) : String :=
  let u0 := removeSpaces (pyLower (pyStrip (raw.getD "")))
  let u1 := if strHasSub u0 "/" then afterLastSlash u0 else u0
  let u2 := if u1 = "item" ∨ u1 = "items" ∨ u1 = "each" then "each" else u1
  let u3 :=
    if u2 = "l" ∨ u2 = "litre" ∨ u2 = "litres" ∨ u2 = "liter" ∨ u2 = "liters"
    then "liter" else u2
  let u4 := if u3 = "gal" ∨ u3 = "gals" ∨ u3 = "gallon" ∨ u3 = "gallons" then "gallon" else u3
  parse_unit_default u4 (norm_unit_type unit_type)

/-- The `DENSITY_KG_PER_L` dict (climatiq.py lines 148-154), in declaration
order; substring scan order is load-bearing. -/
def DENSITY_KG_PER_L : List (String × ℚ) :=
  [("milk", 103/100), ("cow milk", 103/100), ("oat milk", 103/100),
   ("water", 1), ("olive oil", 91/100)]

/-- The `AVG_ITEM_MASS_KG` dict (climatiq.py lines 157-165), in declaration
order. -/
def AVG_ITEM_MASS_KG : List (String × ℚ) :=
  [("lime", 67/1000),
   ("mandarin", 88/1000), ("tangerine", 95/1000), ("orange", 13/100),
   ("banana", 12/100), ("bananas", 12/100),
   ("apple", 18/100), ("pear", 18/100),
   ("onion", 15/100), ("tomato", 12/100), ("potato", 21/100),
   ("lemon", 85/1000)]

/-- `_density_for(name)` (climatiq.py lines 167-172): first density whose
key is a substring of the lowercased name. -/
def density_for (name : String) : Option ℚ :=
  let n := pyLower name
  (DENSITY_KG_PER_L.find? (fun p => strHasSub n p.1)).map (fun p => p.2)

/-- `_avg_item_mass_for(name)` (climatiq.py lines 174-179): first average
item mass whose key is a substring of the lowercased name. -/
def avg_item_mass_for (name : String) : Option ℚ :=
  let n := pyLower name
  (AVG_ITEM_MASS_KG.find? (fun p => strHasSub n p.1)).map (fun p => p.2)

/-- `_bridge_volume_mass(name, qty, src_unit, dst_unit)` (climatiq.py lines
181-204): density bridge between volume and mass.  The Python guard
`if not dens` is falsiness, hence also the explicit `dens = 0` test. -/
def bridge_volume_mass (name : String) (qty : ℚ) (src_unit dst_unit : String) :
    Option (ℚ × String) :=
  let src_fam := family src_unit
  let dst_fam := family dst_unit
  if src_fam = dst_fam then none
  else
    match density_for name with
    | none => none
    | some dens =>
      if dens = 0 then none
      else if src_fam = "volume" ∧ dst_fam = "mass" then
        match convert_qty qty src_unit "liter" with
        | none => none
        | some conv =>
          let kg := conv.1 * dens
          if dst_unit = "kg" then some (kg, "kg") else convert_qty kg "kg" dst_unit
      else if src_fam = "mass" ∧ dst_fam = "volume" then
        match convert_qty qty src_unit "kg" with
        | none => none
        | some conv =>
          let liters := conv.1 / dens
          if dst_unit = "liter" then some (liters, "liter")
          else convert_qty liters "liter" dst_unit
      else none

/-- `_bridge_each_to_mass(name, qty_each, dst_unit)` (climatiq.py lines
206-212): item count to mass via the average-item-mass table.  The Python
guard `if not kg_per` is falsiness, hence the `kg_per = 0` test. -/
def bridge_each_to_mass (name : String) (qty_each : ℚ) (dst_unit : String) :
    Option (ℚ × String) :=
  match avg_item_mass_for name with
  | none => none
  | some kg_per =>
    if kg_per = 0 then none
    else
      let kg := qty_each * kg_per
      if dst_unit = "kg" then some (kg, "kg") else convert_qty kg "kg" dst_unit

/-- `_qty_in_factor_unit(name, qty, unit, factor_unit)` (climatiq.py lines
289-314): same-family conversion first, then the count-to-mass bridge,
then the density bridge, and finally the egg heuristic (50 g per egg). -/
def qty_in_factor_unit (name : String) (qty : ℚ) (unit factor_unit : String) :
    Option (ℚ × String) :=
  match convert_qty qty unit factor_unit with
  | some conv => some conv
  | none =>
    let step_each :=
      if family unit = "count" ∧
          (factor_unit = "kg" ∨ factor_unit = "lb" ∨ factor_unit = "g" ∨ factor_unit = "oz")
      then bridge_each_to_mass name qty factor_unit
      else none
    match step_each with
    | some bridged => some bridged
    | none =>
      match bridge_volume_mass name qty unit factor_unit with
      | some bridged => some bridged
      | none =>
        let n := pyLower name
        if strHasSub n "egg" ∧
            (factor_unit = "kg" ∨ factor_unit = "lb" ∨ factor_unit = "g" ∨ factor_unit = "oz")
        then
          if factor_unit = "kg" then some (qty * (5/100), "kg")
          else if factor_unit = "lb" then some (qty * (5/100) * (22046226/10000000), "lb")
          else if factor_unit = "g" then some (qty * 50, "g")
          else some (qty * (5/100) * (352739619/10000000), "oz")
        else none

example : parse_factor_unit (some "kgCO2e/kg") (some "weight") = "kg" := by decide
example : parse_factor_unit (some "kg/kgCO2e") (some "weight") = "kg" := by decide
example : parse_factor_unit (some "widget") (some "number") = "widget" := by decide
example : parse_factor_unit none (some "number") = "each" := by decide
example : avg_item_mass_for "eggs" = none := rfl
example : avg_item_mass_for "egg tomato" = some (12/100) := rfl
example : qty_in_factor_unit "eggs" 6 "each" "kg" = some (6 * (5/100), "kg") := rfl
example : qty_in_factor_unit "egg tomato" 6 "each" "kg" = some (6 * (12/100), "kg") := by
  have hb : bridge_each_to_mass "egg tomato" 6 "kg" = some (6 * (12/100), "kg") := by
    simp only [bridge_each_to_mass,
      show avg_item_mass_for "egg tomato" = some (12/100) from rfl]
    norm_num
  simp only [qty_in_factor_unit, show convert_qty 6 "each" "kg" = none from rfl,
    show family "each" = "count" from rfl, hb]
  norm_num

/-- A provider result document, holding the fields the code reads
(`activity_id`, `unit_type`, `unit`); other raw fields are opaque and
irrelevant to every claim.  A `Doc` models a non-empty (truthy) dict. -/
structure Doc where
  activity_id : Option String
  unit_type : Option String
  unit : Option String
deriving DecidableEq

/-- Truthiness of `d.get("unit")`: the unit key is present and non-empty. -/
def unit_truthy (d : Doc) : Bool :=
  match d.unit with
  | some s => s ≠ ""
  | none => false

/-- A provider estimate response body; `co2e` is `data.get("co2e", 0.0)`'s
source, absent when the key is missing. -/
structure EstResp where
  co2e : Option ℚ
deriving DecidableEq

/-- The `parameters` object of the estimate payload (climatiq.py lines
340-347), one shape per unit type. -/
inductive Params where
  | weight (w : ℚ) (wu : String)
  | volume (v : ℚ) (vu : String)
  | number (n : ℚ)
  | generic (q : ℚ) (u : String)
deriving DecidableEq

/-- The external world of the engine: configuration (`CLIMATIQ_REGION`,
`CLIMATIQ_DATA_VERSION`) and the two network endpoints.  `fetch q b` is
the (successful) result list of `_fetch_search(q, with_region=b)`;
`estimate aid p` is the outcome of the estimate POST for activity id
`aid` and parameters `p`, where `Except.error ()` models a raised
exception (non-2xx status or malformed body).  This is the restriction
of the full fallible model `EnvF` (below) to runs whose search calls
succeed; `_fetch_search`'s own raise path is modelled there. -/
structure Env where
  region : Option String
  data_version : String
  fetch : String → Bool → List Doc
  estimate : Option String → Params → Except Unit EstResp

/-- The module-level `_cache` dict: key to `(timestamp, doc)`.  Stored as
an association list; only lookup order semantics matter. -/
abbrev Cache := List (String × (ℚ × Doc))

/-- `_TTL` (climatiq.py line 80): one hour. -/
def TTL : ℚ := 3600

/-- Dict lookup on the cache. -/
def cache_lookup (c : Cache) (k : String) : Option (ℚ × Doc) :=
  (c.find? (fun p => p.1 = k)).map (fun p => p.2)

/-- `_cache_get(k)` (climatiq.py lines 217-224): absent on a miss; a stale
entry (`now - t > _TTL`) is popped and reported absent; otherwise the
stored doc is returned and the cache is untouched. -/
def cache_get (now : ℚ) (c : Cache) (k : String) : Option Doc × Cache :=
  match cache_lookup c k with
  | none => (none, c)
  | some (t, data) =>
    if now - t > TTL then (none, c.filter (fun p => p.1 ≠ k))
    else (some data, c)

/-- `_cache_set(k, data)` (climatiq.py lines 226-227): unconditional
overwrite with the current timestamp. -/
def cache_set (now : ℚ) (c : Cache) (k : String) (d : Doc) : Cache :=
  (k, (now, d)) :: c.filter (fun p => p.1 ≠ k)

/-- `_filter_results(results)` (climatiq.py lines 231-238): keep only
weight/volume/number documents that declare a unit. -/
def filter_results (results : List Doc) : List Doc :=
  results.filter (fun d =>
    let ut := norm_unit_type d.unit_type
    (ut = "weight" ∨ ut = "volume" ∨ ut = "number") ∧ unit_truthy d)

/-- `_pick_by_unit(results, unit_family)` (climatiq.py lines 248-264):
after filtering, prefer an exact unit-type match for the caller's family,
then any weight/volume document, then the first filtered result.  A
falsy `unit_family` (Python `None` or `""`) short-circuits to the first
filtered result. -/
def pick_by_unit (results : List Doc) (unit_family : Option String) : Option Doc :=
  match filter_results results with
  | [] => none
  | first :: rest =>
    if unit_family = none ∨ unit_family = some "" then some first
    else
      let fam := unit_family.getD ""
      let want := if fam = "mass" then "weight"
                  else if fam = "volume" then "volume" else "number"
      match (first :: rest).find? (fun d => norm_unit_type d.unit_type = want ∧ unit_truthy d) with
      | some d => some d
      | none =>
        match (first :: rest).find? (fun d =>
            (norm_unit_type d.unit_type = "weight" ∨ norm_unit_type d.unit_type = "volume")
            ∧ unit_truthy d) with
        | some d => some d
        | none => some first

/-- The cache key composition of `search_factor` (climatiq.py line 270):
`search::{q}::{unit_family or ''}::{REGION or ''}::{DATA_VERSION}`. -/
def cache_key (env : Env) (q : String) (unit_family : Option String) : String :=
  "search::" ++ q ++ "::" ++ unit_family.getD "" ++ "::" ++ env.region.getD ""
    ++ "::" ++ env.data_version

/-- `search_factor(query, unit_family)` (climatiq.py lines 266-285), with
the cache threaded explicitly.  The third component counts the network
(search-endpoint) calls this invocation performed. -/
def search_factor (env : Env) (now : ℚ) (c : Cache) (query : String)
    (unit_family : Option String) : Option Doc × Cache × ℕ :=
  let q := pyLower (pyStrip query)
  if q.length < 2 then (none, c, 0)
  else
    let key := cache_key env q unit_family
    match cache_get now c key with
    | (some cached, c1) => (some cached, c1, 0)
    | (none, c1) =>
      let results := env.fetch q true
      match pick_by_unit results unit_family with
      | some doc => (some doc, cache_set now c1 key doc, 1)
      | none =>
        let results2 := env.fetch q false
        match (pick_by_unit results2 unit_family).orElse (fun _ => results2.head?) with
        | some doc => (some doc, cache_set now c1 key doc, 2)
        | none => (none, c1, 2)

/-- The `QUERY_HINTS` dict (climatiq.py lines 83-114): item names to
search keywords. -/
def QUERY_HINTS : List (String × String) :=
  [("ground beef", "beef"),
   ("beef steak", "beef"),
   ("lamb", "lamb"),
   ("chicken breast", "chicken"),
   ("milk (cow)", "cow milk"),
   ("milk", "cow milk"),
   ("plant-based milk", "oat milk"),
   ("oat milk", "oat milk"),
   ("yogurt (plain)", "yogurt"),
   ("cheese (hard)", "cheese"),
   ("tofu", "tofu"),
   ("lentils (dry)", "lentils"),
   ("beans (dry)", "beans"),
   ("rice (white)", "rice white"),
   ("bread (loaf)", "bread"),
   ("pasta (dry)", "pasta"),
   ("apples", "apples"),
   ("bananas", "bananas"),
   ("mandarins", "mandarins"),
   ("lime", "limes"),
   ("chocolate", "chocolate"),
   ("coffee (roasted)", "coffee beans"),
   ("bottled water", "bottled water"),
   ("tilapia", "tilapia fillet"),
   ("salmon", "salmon fillet"),
   ("cod", "cod fillet"),
   ("tuna", "tuna (raw)"),
   ("fish", "fish fillet"),
   ("whitefish", "whitefish fillet"),
   ("shrimp", "shrimp (raw)")]

/-- The hint resolution of `estimate_for_qty` (climatiq.py line 320):
`QUERY_HINTS.get((name or '').lower(), name)`. -/
def hint_for (name : String) : String :=
  (QUERY_HINTS.lookup (pyLower name)).getD name

/-- The family argument passed to `search_factor` by `estimate_for_qty`
(climatiq.py line 321): the unit's family when it is mass/volume/count,
`None` otherwise. -/
def fam_arg_of (unit : String) : Option String :=
  let fam := family unit
  if fam = "mass" ∨ fam = "volume" ∨ fam = "count" then some fam else none

/-- The factor unit normalisation of `estimate_for_qty` (climatiq.py lines
327-328): `normalize(_parse_factor_unit(doc.get("unit"), utype))` with
`utype = _norm_unit_type(doc.get("unit_type"))`. -/
def factor_unit_of (doc : Doc) : String :=
  normalize (some (parse_factor_unit doc.unit (some (norm_unit_type doc.unit_type))))

/-- The parameters object built by `estimate_for_qty` (climatiq.py lines
340-347), keyed on the normalised unit type. -/
def build_params (utype : String) (q : ℚ) (u : String) : Params :=
  if utype = "weight" then Params.weight q u
  else if utype = "volume" then Params.volume q u
  else if utype = "number" then Params.number q
  else Params.generic q u

/-- `estimate_for_qty(name, qty, unit)` (climatiq.py lines 316-365), with
the cache threaded explicitly.  `Except.ok none` models the soft
`return None` exits (non-positive quantity, no factor, unit mismatch);
`Except.error ()` models the re-raised estimate-call exception; on
success the result carries `float(data.get("co2e", 0.0))`, the factor
document and the raw response. -/
def estimate_for_qty (env : Env) (now : ℚ) (c : Cache) (name : String) (qty : ℚ)
    (unit : String) : Cache × Except Unit (Option (ℚ × Doc × EstResp)) :=
  if qty ≤ 0 then (c, Except.ok none)
  else
    match search_factor env now c (hint_for name) (fam_arg_of unit) with
    | (none, c1, _) => (c1, Except.ok none)
    | (some doc, c1, _) =>
      let factor_unit := factor_unit_of doc
      match qty_in_factor_unit name qty unit factor_unit with
      | none => (c1, Except.ok none)
      | some q_conv =>
        match env.estimate doc.activity_id
            (build_params (norm_unit_type doc.unit_type) q_conv.1 factor_unit) with
        | Except.error e => (c1, Except.error e)
        | Except.ok data => (c1, Except.ok (some (data.co2e.getD 0, doc, data)))

/-- An input item of `compute_co2` (calculator.py): a dict whose `name`,
`qty` and `unit` keys may each be missing (or `None`). -/
structure Item where
  name : Option String
  qty : Option ℚ
  unit : Option String
deriving DecidableEq

/-- A breakdown entry of `compute_co2`: on success `kg_co2` is the rounded
estimate and `details` carries provenance; on a skip `kg_co2` is zero,
`skipped` is set and there are no details. -/
structure Entry where
  name : String
  qty : ℚ
  unit : String
  kg_co2 : ℚ
  skipped : Bool
  details : Option (Doc × EstResp)
deriving DecidableEq

/-- Round-half-to-even on rationals, the semantics of Python `round`. -/
def roundHalfEven (q : ℚ) : ℤ :=
  let f := ⌊q⌋
  let r := q - f
  if r < 1/2 then f
  else if r > 1/2 then f + 1
  else if f % 2 = 0 then f else f + 1

/-- Python `round(x, 3)` on the exact rational model. -/
def round3 (q : ℚ) : ℚ := (roundHalfEven (q * 1000) : ℚ) / 1000

/-- The name extraction of `compute_co2` (calculator.py line 11):
`(it.get("name") or "").strip()`. -/
def item_name (it : Item) : String := pyStrip (it.name.getD "")

/-- The quantity extraction of `compute_co2` (calculator.py line 12):
`float(it.get("qty") or 0)`; a missing key and a zero value both yield 0. -/
def item_qty (it : Item) : ℚ := it.qty.getD 0

/-- The unit extraction of `compute_co2` (calculator.py line 13):
`it.get("unit") or "each"`; missing or empty gives "each". -/
def item_unit (it : Item) : String :=
  match it.unit with
  | none => "each"
  | some u => if u = "" then "each" else u

/-- The skipped breakdown entry appended by `compute_co2` when an item
yields no estimate (calculator.py lines 30-37). -/
def skip_entry (it : Item) : Entry :=
  { name := item_name it, qty := item_qty it, unit := item_unit it,
    kg_co2 := 0, skipped := true, details := none }

/-- One loop iteration of `compute_co2` (calculator.py lines 10-37): call
`estimate_for_qty`, turning a raised exception into `None` (the
`except` clause), then either accumulate the estimate or append a
skipped entry. -/
def compute_step (env : Env) (now : ℚ) (acc : ℚ × List Entry × Cache) (it : Item) :
    ℚ × List Entry × Cache :=
  let (c1, r) := estimate_for_qty env now acc.2.2 (item_name it) (item_qty it) (item_unit it)
  let est := match r with
             | Except.error _ => none
             | Except.ok o => o
  match est with
  | some (kg, doc, data) =>
    (acc.1 + kg,
     acc.2.1 ++ [{ name := item_name it, qty := item_qty it, unit := item_unit it,
                   kg_co2 := round3 kg, skipped := false, details := some (doc, data) }],
     c1)
  | none => (acc.1, acc.2.1 ++ [skip_entry it], c1)

/-- `compute_co2(items)` (calculator.py lines 6-39), with the cache
threaded explicitly: fold the items through `compute_step`, then round
the total to three decimals. -/
def compute_co2 (env : Env) (now : ℚ) (c : Cache) (items : List Item) :
    ℚ × List Entry × Cache :=
  let folded := items.foldl (compute_step env now) (0, [], c)
  (round3 folded.1, folded.2.1, folded.2.2)

/-- C1 counterexample: `convert_qty(1, "kg", "kg")` is not `(1, "kg")`.
There is no `src == dst` shortcut: the value is routed through the lb
base, and the truncated constants `2.2046226218 * 0.45359237` multiply
to `0.999999999977875666`, not `1`. -/
theorem convert_qty_kg_self_not_identity : convert_qty 1 "kg" "kg" ≠ some (1, "kg") := by
  rw [show convert_qty 1 "kg" "kg"
      = some (1 * (22046226218/10000000000) * (45359237/100000000), "kg") from rfl]
  simp only [ne_eq, Option.some.injEq, Prod.mk.injEq, not_and]
  intro h
  exact absurd h (by norm_num)

/-- C1 (amended): `convert_qty(x, u, u) = x` holds exactly for the units
whose to-base and from-base constants are exact inverses — lb, oz,
liter, ml, gallon and each.  For kg and g the round trip through the lb
base multiplies by a constant slightly below 1 (see the counterexample),
because the code has no `src == dst` shortcut. -/
theorem convert_qty_self_identity (x : ℚ) (u : String)
    (hu : u ∈ (["lb", "oz", "liter", "ml", "gallon", "each"] : List String)) :
    convert_qty x u u = some (x, u) := by
  fin_cases hu
  · rw [show convert_qty x "lb" "lb" = some (x * 1 * 1, "lb") from rfl]
    simp only [Option.some.injEq, Prod.mk.injEq]
    exact ⟨by ring, trivial⟩
  · rw [show convert_qty x "oz" "oz" = some (x * (1/16) * 16, "oz") from rfl]
    simp only [Option.some.injEq, Prod.mk.injEq]
    exact ⟨by ring, trivial⟩
  · rw [show convert_qty x "liter" "liter" = some (x * 1 * 1, "liter") from rfl]
    simp only [Option.some.injEq, Prod.mk.injEq]
    exact ⟨by ring, trivial⟩
  · rw [show convert_qty x "ml" "ml" = some (x * (1/1000) * 1000, "ml") from rfl]
    simp only [Option.some.injEq, Prod.mk.injEq]
    exact ⟨by ring, trivial⟩
  · rw [show convert_qty x "gallon" "gallon"
        = some (x * (378541/100000) * (1/(378541/100000)), "gallon") from rfl]
    simp only [Option.some.injEq, Prod.mk.injEq]
    exact ⟨by ring, trivial⟩
  · rw [show convert_qty x "each" "each" = some (x, "each") from rfl]

/-- Witness for the amended C1 theorem at `x = 3`, `u = "oz"`. -/
theorem convert_qty_self_identity_witness :
    ("oz" ∈ (["lb", "oz", "liter", "ml", "gallon", "each"] : List String))
      ∧ convert_qty 3 "oz" "oz" = some (3, "oz") :=
  ⟨by decide, convert_qty_self_identity 3 "oz" (by decide)⟩

/-- C2 counterexample: "banana" is neither a known unit nor an alias, yet
`normalize` returns it unchanged instead of defaulting to "each". -/
theorem normalize_unknown_not_each :
    normalize (some "banana") = "banana" ∧ normalize (some "banana") ≠ "each" :=
  ⟨rfl, by decide⟩

/-- C2 (amended): `normalize` lowercases, trims and resolves the known
aliases, and maps empty or missing input to "each"; any other input that
is not an alias key is returned as-is (lowercased and trimmed), not
defaulted to "each". -/
theorem normalize_amended :
    normalize none = "each" ∧ normalize (some "") = "each" ∧
    normalize (some " LBS ") = "lb" ∧ normalize (some "L") = "liter" ∧
    normalize (some "gal") = "gallon" ∧
    (∀ s : String, s ≠ "" → ALIASES.lookup (pyLower (pyStrip s)) = none →
      normalize (some s) = pyLower (pyStrip s)) := by
  refine ⟨rfl, rfl, rfl, rfl, rfl, ?_⟩
  intro s hs hl
  simp only [normalize, if_neg hs, hl, Option.getD_none]

/-- Witness for the amended C2 theorem at the unknown input "banana". -/
theorem normalize_amended_witness :
    ("banana" : String) ≠ "" ∧ ALIASES.lookup (pyLower (pyStrip "banana")) = none ∧
    normalize (some "banana") = pyLower (pyStrip "banana") :=
  ⟨by decide, rfl, normalize_amended.2.2.2.2.2 "banana" (by decide) rfl⟩

/-- Helper: under the weight family the default chain always produces a
mass unit. -/
lemma parse_unit_default_weight (u4 : String) :
    parse_unit_default u4 "weight" ∈ (["kg", "lb", "g", "oz"] : List String) := by
  unfold parse_unit_default
  split_ifs with h1 h2 h3 h4 h5
  · decide
  · exact absurd h2.1 (by decide)
  · rw [not_and] at h1
    have hD := not_not.mp (h1 rfl)
    rcases hD with h | h | h | h <;> (subst h; decide)
  · decide
  · exact absurd h5 (by decide)
  · exact absurd h4 (by decide)

/-- Helper: under the volume family the default chain always produces a
volume unit. -/
lemma parse_unit_default_volume (u4 : String) :
    parse_unit_default u4 "volume" ∈ (["liter", "ml", "gallon"] : List String) := by
  unfold parse_unit_default
  split_ifs with h1 h2 h3 h4 h5
  · exact absurd h1.1 (by decide)
  · decide
  · rw [not_and] at h2
    have hD := not_not.mp (h2 rfl)
    rcases hD with h | h | h <;> (subst h; decide)
  · exact absurd h4 (by decide)
  · decide
  · rw [not_and] at h2
    have hD := not_not.mp (h2 rfl)
    rcases hD with h | h | h <;> (subst h; simp at h3)

/-- C4 counterexample: under the number family an unrecognized but
non-empty declared unit is returned unchanged, not defaulted to
"each". -/
theorem parse_factor_unit_number_not_each :
    parse_factor_unit (some "widget") (some "number") = "widget"
      ∧ ("widget" : String) ≠ "each" :=
  ⟨rfl, by decide⟩

/-- C4 (amended): the parser takes the token after the last "/" of the
ratio expression and maps known synonyms; when the declared unit is
absent it defaults per family (kg/liter/each), and when it is merely
unrecognized it defaults to kg for weight and liter for volume — but
under the number family an unrecognized non-empty token is returned
unchanged, so the "each" default applies only to an absent unit. -/
theorem parse_factor_unit_amended :
    parse_factor_unit none (some "weight") = "kg"
      ∧ parse_factor_unit none (some "volume") = "liter"
      ∧ parse_factor_unit none (some "number") = "each"
      ∧ parse_factor_unit (some "bogus") (some "weight") = "kg"
      ∧ parse_factor_unit (some "bogus") (some "volume") = "liter"
      ∧ parse_factor_unit (some "bogus") (some "number") = "bogus"
      ∧ parse_factor_unit (some "kgCO2e/kg") (some "number") = "kg"
      ∧ parse_factor_unit (some "kg/kgCO2e") (some "weight") = "kg"
      ∧ parse_factor_unit (some "KWh/L") (some "volume") = "liter"
      ∧ (∀ raw ut, norm_unit_type ut = "weight" →
          parse_factor_unit raw ut ∈ (["kg", "lb", "g", "oz"] : List String))
      ∧ (∀ raw ut, norm_unit_type ut = "volume" →
          parse_factor_unit raw ut ∈ (["liter", "ml", "gallon"] : List String)) := by
  refine ⟨rfl, rfl, rfl, rfl, rfl, rfl, rfl, rfl, rfl, ?_, ?_⟩
  · intro raw ut h
    simp only [parse_factor_unit, h]
    exact parse_unit_default_weight _
  · intro raw ut h
    simp only [parse_factor_unit, h]
    exact parse_unit_default_volume _

/-- Witness for the amended C4 theorem: the weight-family conjunct applied
to the unrecognized declared unit "tonne". -/
theorem parse_factor_unit_amended_witness :
    norm_unit_type (some "Weight") = "weight"
      ∧ parse_factor_unit (some "tonne") (some "Weight")
          ∈ (["kg", "lb", "g", "oz"] : List String) :=
  ⟨rfl, parse_factor_unit_amended.2.2.2.2.2.2.2.2.2.1 (some "tonne") (some "Weight") rfl⟩

/-- Helper: every document surviving `_filter_results` declares a truthy
unit. -/
lemma filter_results_unit_truthy {d : Doc} {results : List Doc}
    (hd : d ∈ filter_results results) : unit_truthy d = true := by
  unfold filter_results at hd
  have h := List.of_mem_filter hd
  simp only [decide_eq_true_eq] at h
  exact h.2

/-- Helper: on a list whose members all declare a truthy unit, searching
with an extra truthy-unit conjunct is searching without it. -/
lemma find?_and_of_all (l : List Doc) (A : Doc → Prop) [DecidablePred A]
    (h : ∀ d ∈ l, unit_truthy d = true) :
    (l.find? fun d => A d ∧ unit_truthy d) = l.find? fun d => A d := by
  induction l with
  | nil => rfl
  | cons x xs ih =>
    have hx : unit_truthy x = true := h x (List.mem_cons_self x xs)
    have ih' := ih fun d hd => h d (List.mem_cons_of_mem x hd)
    by_cases hA : A x
    · rw [List.find?_cons_of_pos _ (by simp [hA, hx]),
        List.find?_cons_of_pos _ (by simp [hA])]
    · rw [List.find?_cons_of_neg _ (by simp [hA]),
        List.find?_cons_of_neg _ (by simp [hA]), ih']

/-- The selection rule as the specification words it: filter to
weight/volume/number documents that declare a unit, then take the first
document whose unit type matches the caller's family (mass to weight,
volume to volume, count to number), else the first weight/volume
document, else the first filtered result. -/
def pick_spec (results : List Doc) (fam : String) : Option Doc :=
  let rs := filter_results results
  let want := if fam = "mass" then "weight"
              else if fam = "volume" then "volume"
              else if fam = "count" then "number" else ""
  match rs.find? (fun d => norm_unit_type d.unit_type = want) with
  | some d => some d
  | none =>
    match rs.find? (fun d =>
        norm_unit_type d.unit_type = "weight" ∨ norm_unit_type d.unit_type = "volume") with
    | some d => some d
    | none => rs.head?

/-- C7: for each declared unit family, `_pick_by_unit` implements exactly
the specified selection rule over the filtered result list. -/
theorem pick_by_unit_correct (results : List Doc) (fam : String)
    (hfam : fam ∈ (["mass", "volume", "count"] : List String)) :
    pick_by_unit results (some fam) = pick_spec results fam := by
  have hall : ∀ d ∈ filter_results results, unit_truthy d = true :=
    fun d hd => filter_results_unit_truthy hd
  fin_cases hfam <;>
  · unfold pick_by_unit pick_spec
    cases hrs : filter_results results with
    | nil => rfl
    | cons first rest =>
      have hall' : ∀ d ∈ first :: rest, unit_truthy d = true := by
        rw [← hrs]; exact hall
      simp only [Option.getD_some, String.reduceEq, reduceIte, if_true, if_false]
      rw [find?_and_of_all _ _ hall', find?_and_of_all _ _ hall']
      simp

/-- Witness for the C7 theorem at the mass family and a one-document
result list. -/
theorem pick_by_unit_correct_witness :
    ("mass" ∈ (["mass", "volume", "count"] : List String))
      ∧ pick_by_unit [⟨some "a1", some "weight", some "kg"⟩] (some "mass")
          = pick_spec [⟨some "a1", some "weight", some "kg"⟩] "mass" :=
  ⟨by decide, pick_by_unit_correct [⟨some "a1", some "weight", some "kg"⟩] "mass" (by decide)⟩

/-- Helper: setting a key makes it readable, with the write timestamp. -/
lemma cache_lookup_set_self (t : ℚ) (c : Cache) (k : String) (d : Doc) :
    cache_lookup (cache_set t c k d) k = some (t, d) := by
  unfold cache_lookup cache_set
  rw [List.find?_cons_of_pos _ (by simp)]
  rfl

/-- Helper: popping a key removes every binding of it. -/
lemma cache_lookup_filter_self (c : Cache) (k : String) :
    cache_lookup (c.filter fun p => p.1 ≠ k) k = none := by
  induction c with
  | nil => rfl
  | cons x xs ih =>
    by_cases hx : x.1 = k
    · rw [List.filter_cons, if_neg (by simp [hx])]
      exact ih
    · rw [List.filter_cons, if_pos (by simp [hx])]
      unfold cache_lookup at ih ⊢
      rw [List.find?_cons_of_neg _ (by simp [hx])]
      exact ih

/-- Helper: when `_cache_get` reports a miss, the cache it hands back has
no binding for the key (the entry was either never there or just
evicted). -/
lemma cache_get_none_lookup {now : ℚ} {c c1 : Cache} {k : String}
    (h : cache_get now c k = (none, c1)) : cache_lookup c1 k = none := by
  unfold cache_get at h
  split at h
  · rename_i hl
    cases h
    exact hl
  · rename_i t data hl
    split at h
    · cases h
      exact cache_lookup_filter_self c k
    · simp at h

/-- C6: the second pass runs only when the region-scoped first pass
selects nothing; it re-queries without the region and applies the same
selection; if that still selects nothing it falls back to the first raw
result of the second pass, and the search is absent exactly when the
second pass returned no results at all. -/
theorem search_factor_second_pass (env : Env) (now : ℚ) (c : Cache) (query : String)
    (fam : Option String)
    (hq : 2 ≤ (pyLower (pyStrip query)).length)
    (hmiss : cache_lookup c (cache_key env (pyLower (pyStrip query)) fam) = none) :
    (∀ d, pick_by_unit (env.fetch (pyLower (pyStrip query)) true) fam = some d →
        search_factor env now c query fam
          = (some d, cache_set now c (cache_key env (pyLower (pyStrip query)) fam) d, 1))
    ∧ (pick_by_unit (env.fetch (pyLower (pyStrip query)) true) fam = none →
        (search_factor env now c query fam).2.2 = 2)
    ∧ (∀ d2, pick_by_unit (env.fetch (pyLower (pyStrip query)) true) fam = none →
        pick_by_unit (env.fetch (pyLower (pyStrip query)) false) fam = some d2 →
        (search_factor env now c query fam).1 = some d2)
    ∧ (pick_by_unit (env.fetch (pyLower (pyStrip query)) true) fam = none →
        pick_by_unit (env.fetch (pyLower (pyStrip query)) false) fam = none →
        (search_factor env now c query fam).1
          = (env.fetch (pyLower (pyStrip query)) false).head?)
    ∧ (pick_by_unit (env.fetch (pyLower (pyStrip query)) true) fam = none →
        ((search_factor env now c query fam).1 = none
          ↔ env.fetch (pyLower (pyStrip query)) false = [])) := by
  have hlen : ¬((pyLower (pyStrip query)).length < 2) := Nat.not_lt.mpr hq
  have hget : cache_get now c (cache_key env (pyLower (pyStrip query)) fam) = (none, c) := by
    unfold cache_get
    rw [hmiss]
  refine ⟨?_, ?_, ?_, ?_, ?_⟩
  · intro d h1
    simp only [search_factor, if_neg hlen, hget, h1]
  · intro h1
    simp only [search_factor, if_neg hlen, hget, h1, Option.orElse]
    cases hp2 : pick_by_unit (env.fetch (pyLower (pyStrip query)) false) fam with
    | none =>
      cases hf2 : (env.fetch (pyLower (pyStrip query)) false).head? <;> simp
    | some d2 => simp
  · intro d2 h1 h2
    simp only [search_factor, if_neg hlen, hget, h1, h2, Option.orElse]
  · intro h1 h2
    simp only [search_factor, if_neg hlen, hget, h1, h2, Option.orElse]
    cases hf2 : (env.fetch (pyLower (pyStrip query)) false).head? <;> simp
  · intro h1
    simp only [search_factor, if_neg hlen, hget, h1, Option.orElse]
    cases hp2 : pick_by_unit (env.fetch (pyLower (pyStrip query)) false) fam with
    | none =>
      cases hf2 : env.fetch (pyLower (pyStrip query)) false with
      | nil => simp
      | cons d0 ds => simp
    | some d2 =>
      cases hf2 : env.fetch (pyLower (pyStrip query)) false with
      | nil =>
        rw [hf2] at hp2
        cases hp2
      | cons d0 ds => simp [hf2]

/-- A concrete weight-family factor document used by several witnesses. -/
def docW : Doc := ⟨some "a1", some "weight", some "kg"⟩

/-- A concrete environment whose search endpoint always returns `docW`. -/
def env_one : Env :=
  ⟨none, "^3", fun _ _ => [docW], fun _ _ => Except.ok ⟨none⟩⟩

/-- A concrete environment whose region-scoped search returns nothing and
whose unscoped search returns `docW`. -/
def env_two : Env :=
  ⟨some "US", "^3", fun _ b => if b then [] else [docW], fun _ _ => Except.ok ⟨none⟩⟩

/-- Witness for the C6 theorem: with an empty region-scoped pass and a
non-empty unscoped pass, the search returns the unscoped document. -/
theorem search_factor_second_pass_witness :
    2 ≤ (pyLower (pyStrip "beef")).length
    ∧ cache_lookup [] (cache_key env_two (pyLower (pyStrip "beef")) none) = none
    ∧ pick_by_unit (env_two.fetch (pyLower (pyStrip "beef")) true) none = none
    ∧ pick_by_unit (env_two.fetch (pyLower (pyStrip "beef")) false) none = some docW
    ∧ (search_factor env_two 0 [] "beef" none).1 = some docW :=
  ⟨by decide, rfl, rfl, rfl,
   (search_factor_second_pass env_two 0 [] "beef" none (by decide) rfl).2.2.1 docW rfl rfl⟩

/-- C5: starting from a cold cache, a successful region-scoped search at
`t1` performs one network call and caches its document; an identical
search at `t2` within the TTL window performs no network call and
returns the cached document (one network call across the two); reading
the key at `t3` past the TTL treats the entry as absent and evicts it as
a side effect; and a third identical search at `t3` performs at least
one new network call. -/
theorem search_factor_cache_ttl (env : Env) (query : String) (fam : Option String)
    (d : Doc) (t1 t2 t3 : ℚ) (c0 : Cache)
    (hq : 2 ≤ (pyLower (pyStrip query)).length)
    (hmiss : cache_lookup c0 (cache_key env (pyLower (pyStrip query)) fam) = none)
    (hpick : pick_by_unit (env.fetch (pyLower (pyStrip query)) true) fam = some d)
    (hwin : t2 - t1 ≤ TTL)
    (hexp : TTL < t3 - t1) :
    search_factor env t1 c0 query fam
      = (some d, cache_set t1 c0 (cache_key env (pyLower (pyStrip query)) fam) d, 1)
    ∧ search_factor env t2 (cache_set t1 c0 (cache_key env (pyLower (pyStrip query)) fam) d)
        query fam
      = (some d, cache_set t1 c0 (cache_key env (pyLower (pyStrip query)) fam) d, 0)
    ∧ cache_get t3 (cache_set t1 c0 (cache_key env (pyLower (pyStrip query)) fam) d)
        (cache_key env (pyLower (pyStrip query)) fam)
      = (none, (cache_set t1 c0 (cache_key env (pyLower (pyStrip query)) fam) d).filter
          (fun p => p.1 ≠ cache_key env (pyLower (pyStrip query)) fam))
    ∧ 1 ≤ (search_factor env t3
        (cache_set t1 c0 (cache_key env (pyLower (pyStrip query)) fam) d) query fam).2.2 := by
  have hlen : ¬((pyLower (pyStrip query)).length < 2) := Nat.not_lt.mpr hq
  have hget1 : cache_get t1 c0 (cache_key env (pyLower (pyStrip query)) fam) = (none, c0) := by
    unfold cache_get
    rw [hmiss]
  have hget2 : cache_get t2 (cache_set t1 c0 (cache_key env (pyLower (pyStrip query)) fam) d)
      (cache_key env (pyLower (pyStrip query)) fam)
      = (some d, cache_set t1 c0 (cache_key env (pyLower (pyStrip query)) fam) d) := by
    simp only [cache_get, cache_lookup_set_self]
    rw [if_neg (not_lt.mpr hwin)]
  have hget3 : cache_get t3 (cache_set t1 c0 (cache_key env (pyLower (pyStrip query)) fam) d)
      (cache_key env (pyLower (pyStrip query)) fam)
      = (none, (cache_set t1 c0 (cache_key env (pyLower (pyStrip query)) fam) d).filter
          (fun p => p.1 ≠ cache_key env (pyLower (pyStrip query)) fam)) := by
    simp only [cache_get, cache_lookup_set_self]
    rw [if_pos hexp]
  refine ⟨?_, ?_, hget3, ?_⟩
  · simp only [search_factor, if_neg hlen, hget1, hpick]
  · simp only [search_factor, if_neg hlen, hget2]
  · simp only [search_factor, if_neg hlen, hget3, hpick]
    exact le_refl 1

/-- Witness for the C5 theorem: concrete timestamps 0 / 1800 / 4000 around
the 3600-second TTL. -/
theorem search_factor_cache_ttl_witness :
    2 ≤ (pyLower (pyStrip "beef")).length
    ∧ cache_lookup [] (cache_key env_one (pyLower (pyStrip "beef")) none) = none
    ∧ pick_by_unit (env_one.fetch (pyLower (pyStrip "beef")) true) none = some docW
    ∧ (1800 : ℚ) - 0 ≤ TTL
    ∧ TTL < (4000 : ℚ) - 0
    ∧ (search_factor env_one 1800
        (cache_set 0 [] (cache_key env_one (pyLower (pyStrip "beef")) none) docW)
        "beef" none).2.2 = 0 :=
  ⟨by decide, rfl, rfl, by norm_num [TTL], by norm_num [TTL],
   congrArg (fun r => r.2.2)
     (search_factor_cache_ttl env_one "beef" none docW 0 1800 4000 []
       (by decide) rfl rfl (by norm_num [TTL]) (by norm_num [TTL])).2.1⟩

/-- Helper: a fresh `_cache_get` hit returns the cache unchanged, and the
returned document is the stored one. -/
lemma cache_get_some {now : ℚ} {c c1 : Cache} {k : String} {dd : Doc}
    (h : cache_get now c k = (some dd, c1)) :
    c1 = c ∧ ∃ t', cache_lookup c k = some (t', dd) := by
  unfold cache_get at h
  split at h
  · simp at h
  · rename_i t data hl
    split at h
    · simp at h
    · injection h with ha hb
      injection ha with ha
      exact ⟨hb.symm, t, by rw [hl, ha]⟩

/-- A concrete environment whose search endpoint never returns results. -/
def env_empty : Env :=
  ⟨none, "^3", fun _ _ => [], fun _ _ => Except.ok ⟨none⟩⟩

/-- A cache holding a stale (timestamp 0) entry for the "beef" search key. -/
def stale_cache : Cache := [(cache_key env_empty "beef" none, (0, docW))]

/-- C9 counterexample: a search that ends Absent can still change the
cache — reading a stale entry evicts it, so the cache before and after
differ at the key even though nothing was written. -/
theorem search_factor_absent_changes_cache :
    (search_factor env_empty 4000 stale_cache "beef" none).1 = none
    ∧ cache_lookup (search_factor env_empty 4000 stale_cache "beef" none).2.1
        (cache_key env_empty "beef" none)
      ≠ cache_lookup stale_cache (cache_key env_empty "beef" none) := by
  have hred : pyLower (pyStrip "beef") = "beef" := rfl
  have hget : cache_get 4000 stale_cache (cache_key env_empty "beef" none)
      = (none, ([] : Cache)) := by
    simp only [cache_get,
      show cache_lookup stale_cache (cache_key env_empty "beef" none)
        = some (0, docW) from rfl]
    rw [if_pos (by norm_num [TTL])]
    rfl
  have hs : search_factor env_empty 4000 stale_cache "beef" none = (none, [], 2) := by
    simp only [search_factor, hred]
    rw [if_neg (by decide)]
    simp only [hget,
      show env_empty.fetch "beef" true = [] from rfl,
      show env_empty.fetch "beef" false = [] from rfl,
      show pick_by_unit [] none = none from rfl, Option.orElse]
    rfl
  rw [hs]
  exact ⟨rfl, by decide⟩

/-- C9 (amended): `search_factor` writes an entry under the composed key
only on success — after an Absent result the key is unmapped (although a
stale pre-existing entry may have been evicted by the read, so the cache
is not always literally unchanged), and a later identical call performs
at least one new provider query. -/
theorem search_factor_writes_only_on_success (env : Env) (now now2 : ℚ) (c : Cache)
    (query : String) (fam : Option String)
    (hq : 2 ≤ (pyLower (pyStrip query)).length) :
    ((search_factor env now c query fam).1 = none →
        cache_lookup (search_factor env now c query fam).2.1
          (cache_key env (pyLower (pyStrip query)) fam) = none)
    ∧ (∀ d, (search_factor env now c query fam).1 = some d →
        ∃ t', cache_lookup (search_factor env now c query fam).2.1
          (cache_key env (pyLower (pyStrip query)) fam) = some (t', d))
    ∧ ((search_factor env now c query fam).1 = none →
        1 ≤ (search_factor env now2 (search_factor env now c query fam).2.1 query fam).2.2) := by
  have hlen : ¬((pyLower (pyStrip query)).length < 2) := Nat.not_lt.mpr hq
  rcases hcg : cache_get now c (cache_key env (pyLower (pyStrip query)) fam) with ⟨docO, c1⟩
  cases docO with
  | some cached =>
    have hs : search_factor env now c query fam = (some cached, c1, 0) := by
      simp only [search_factor, if_neg hlen, hcg]
    obtain ⟨hc1, t', hl⟩ := cache_get_some hcg
    refine ⟨?_, ?_, ?_⟩
    · intro h
      rw [hs] at h
      simp at h
    · intro d hd
      rw [hs] at hd
      obtain rfl := Option.some.inj hd
      exact ⟨t', by rw [hs, hc1]; exact hl⟩
    · intro h
      rw [hs] at h
      simp at h
  | none =>
    have hl1 : cache_lookup c1 (cache_key env (pyLower (pyStrip query)) fam) = none :=
      cache_get_none_lookup hcg
    cases hp1 : pick_by_unit (env.fetch (pyLower (pyStrip query)) true) fam with
    | some doc =>
      have hs : search_factor env now c query fam
          = (some doc, cache_set now c1 (cache_key env (pyLower (pyStrip query)) fam) doc, 1) := by
        simp only [search_factor, if_neg hlen, hcg, hp1]
      refine ⟨?_, ?_, ?_⟩
      · intro h
        rw [hs] at h
        simp at h
      · intro d hd
        rw [hs] at hd
        obtain rfl := Option.some.inj hd
        exact ⟨now, by rw [hs]; exact cache_lookup_set_self _ _ _ _⟩
      · intro h
        rw [hs] at h
        simp at h
    | none =>
      cases ho : (pick_by_unit (env.fetch (pyLower (pyStrip query)) false) fam).orElse
          (fun _ => (env.fetch (pyLower (pyStrip query)) false).head?) with
      | some doc =>
        have hs : search_factor env now c query fam
            = (some doc, cache_set now c1 (cache_key env (pyLower (pyStrip query)) fam) doc, 2) := by
          simp only [search_factor, if_neg hlen, hcg, hp1, ho]
        refine ⟨?_, ?_, ?_⟩
        · intro h
          rw [hs] at h
          simp at h
        · intro d hd
          rw [hs] at hd
          obtain rfl := Option.some.inj hd
          exact ⟨now, by rw [hs]; exact cache_lookup_set_self _ _ _ _⟩
        · intro h
          rw [hs] at h
          simp at h
      | none =>
        have hs : search_factor env now c query fam = (none, c1, 2) := by
          simp only [search_factor, if_neg hlen, hcg, hp1, ho]
        have hget2 : cache_get now2 c1 (cache_key env (pyLower (pyStrip query)) fam)
            = (none, c1) := by
          unfold cache_get
          rw [hl1]
        refine ⟨?_, ?_, ?_⟩
        · intro _
          rw [hs]
          exact hl1
        · intro d hd
          rw [hs] at hd
          simp at hd
        · intro _
          rw [hs]
          cases hp1' : pick_by_unit (env.fetch (pyLower (pyStrip query)) true) fam with
          | some doc =>
            simp only [search_factor, if_neg hlen, hget2, hp1']
            exact le_refl 1
          | none =>
            cases ho' : (pick_by_unit (env.fetch (pyLower (pyStrip query)) false) fam).orElse
                (fun _ => (env.fetch (pyLower (pyStrip query)) false).head?) with
            | some doc =>
              simp only [search_factor, if_neg hlen, hget2, hp1', ho']
              norm_num
            | none =>
              simp only [search_factor, if_neg hlen, hget2, hp1', ho']
              norm_num

/-- Witness for the amended C9 theorem on a never-matching provider. -/
theorem search_factor_writes_only_on_success_witness :
    2 ≤ (pyLower (pyStrip "beef")).length
    ∧ ((search_factor env_empty 0 [] "beef" none).1 = none →
        cache_lookup (search_factor env_empty 0 [] "beef" none).2.1
          (cache_key env_empty (pyLower (pyStrip "beef")) none) = none) :=
  ⟨by decide, (search_factor_writes_only_on_success env_empty 0 99 [] "beef" none (by decide)).1⟩

/-- Helper: the fail-fast exit of `estimate_for_qty` on a non-positive
quantity. -/
lemma estimate_for_qty_eq_nonpos (env : Env) (now : ℚ) (c : Cache) (name : String)
    (qty : ℚ) (unit : String) (hq : qty ≤ 0) :
    estimate_for_qty env now c name qty unit = (c, Except.ok none) := by
  unfold estimate_for_qty
  rw [if_pos hq]

/-- Helper: the no-factor exit of `estimate_for_qty`. -/
lemma estimate_for_qty_eq_nofactor (env : Env) (now : ℚ) (c : Cache) (name : String)
    (qty : ℚ) (unit : String) (hq : ¬qty ≤ 0) {c1 : Cache} {n : ℕ}
    (hs : search_factor env now c (hint_for name) (fam_arg_of unit) = (none, c1, n)) :
    estimate_for_qty env now c name qty unit = (c1, Except.ok none) := by
  unfold estimate_for_qty
  rw [if_neg hq, hs]

/-- Helper: once a factor document is found, `estimate_for_qty` reduces to
the conversion-then-estimate tail. -/
lemma estimate_for_qty_eq_found (env : Env) (now : ℚ) (c : Cache) (name : String)
    (qty : ℚ) (unit : String) (hq : ¬qty ≤ 0) {doc : Doc} {c1 : Cache} {n : ℕ}
    (hs : search_factor env now c (hint_for name) (fam_arg_of unit) = (some doc, c1, n)) :
    estimate_for_qty env now c name qty unit
      = match qty_in_factor_unit name qty unit (factor_unit_of doc) with
        | none => (c1, Except.ok none)
        | some q_conv =>
          match env.estimate doc.activity_id
              (build_params (norm_unit_type doc.unit_type) q_conv.1 (factor_unit_of doc)) with
          | Except.error e => (c1, Except.error e)
          | Except.ok data => (c1, Except.ok (some (data.co2e.getD 0, doc, data))) := by
  unfold estimate_for_qty
  rw [if_neg hq, hs]

/-- The engine environment with the search endpoint's failure path made
explicit: `fetch_exc q b` is the outcome of `_fetch_search(q,
with_region=b)`, where `Except.error ()` models the exception that
`raise_for_status()` raises on a non-2xx search response (or `r.json()`
on a malformed body) and that the source propagates uncaught through
`search_factor` and `estimate_for_qty`.  `Env` above is the restriction
of this model to runs whose search calls succeed. -/
structure EnvF where
  region : Option String
  data_version : String
  fetch_exc : String → Bool → Except Unit (List Doc)
  estimate : Option String → Params → Except Unit EstResp

/-- The cache key composition of `search_factor` (climatiq.py line 270),
over the fallible environment. -/
def cache_keyF (env : EnvF) (q : String) (unit_family : Option String) : String :=
  "search::" ++ q ++ "::" ++ unit_family.getD "" ++ "::" ++ env.region.getD ""
    ++ "::" ++ env.data_version

/-- `search_factor(query, unit_family)` (climatiq.py lines 266-285) over
the fallible search endpoint: an exception raised inside `_fetch_search`
aborts the call and propagates (the cache keeps any eviction the read
performed; nothing is written); on success the behaviour is exactly that
of `search_factor`.  The second component of a successful outcome counts
the search-endpoint calls performed. -/
def search_factorF (env : EnvF) (now : ℚ) (c : Cache) (query : String)
    (unit_family : Option String) : Cache × Except Unit (Option Doc × ℕ) :=
  let q := pyLower (pyStrip query)
  if q.length < 2 then (c, Except.ok (none, 0))
  else
    let key := cache_keyF env q unit_family
    match cache_get now c key with
    | (some cached, c1) => (c1, Except.ok (some cached, 0))
    | (none, c1) =>
      match env.fetch_exc q true with
      | Except.error e => (c1, Except.error e)
      | Except.ok results =>
        match pick_by_unit results unit_family with
        | some doc => (cache_set now c1 key doc, Except.ok (some doc, 1))
        | none =>
          match env.fetch_exc q false with
          | Except.error e => (c1, Except.error e)
          | Except.ok results2 =>
            match (pick_by_unit results2 unit_family).orElse (fun _ => results2.head?) with
            | some doc => (cache_set now c1 key doc, Except.ok (some doc, 2))
            | none => (c1, Except.ok (none, 2))

/-- `estimate_for_qty(name, qty, unit)` (climatiq.py lines 316-365) over
the fallible search endpoint: a search-call exception propagates out
unchanged — the source has no try/except anywhere on that path — in
addition to the re-raised estimate-call exception. -/
def estimate_for_qtyF (env : EnvF) (now : ℚ) (c : Cache) (name : String) (qty : ℚ)
    (unit : String) : Cache × Except Unit (Option (ℚ × Doc × EstResp)) :=
  if qty ≤ 0 then (c, Except.ok none)
  else
    match search_factorF env now c (hint_for name) (fam_arg_of unit) with
    | (c1, Except.error e) => (c1, Except.error e)
    | (c1, Except.ok (none, _)) => (c1, Except.ok none)
    | (c1, Except.ok (some doc, _)) =>
      match qty_in_factor_unit name qty unit (factor_unit_of doc) with
      | none => (c1, Except.ok none)
      | some q_conv =>
        match env.estimate doc.activity_id
            (build_params (norm_unit_type doc.unit_type) q_conv.1 (factor_unit_of doc)) with
        | Except.error e => (c1, Except.error e)
        | Except.ok data => (c1, Except.ok (some (data.co2e.getD 0, doc, data)))

/-- Helper: the fail-fast exit of `estimate_for_qtyF` on a non-positive
quantity. -/
lemma estimate_for_qtyF_eq_nonpos (env : EnvF) (now : ℚ) (c : Cache) (name : String)
    (qty : ℚ) (unit : String) (hq : qty ≤ 0) :
    estimate_for_qtyF env now c name qty unit = (c, Except.ok none) := by
  unfold estimate_for_qtyF
  rw [if_pos hq]

/-- Helper: a search-call exception propagates out of `estimate_for_qtyF`. -/
lemma estimate_for_qtyF_eq_searchfail (env : EnvF) (now : ℚ) (c : Cache) (name : String)
    (qty : ℚ) (unit : String) (hq : ¬qty ≤ 0) {c1 : Cache} {e : Unit}
    (hs : search_factorF env now c (hint_for name) (fam_arg_of unit) = (c1, Except.error e)) :
    estimate_for_qtyF env now c name qty unit = (c1, Except.error e) := by
  unfold estimate_for_qtyF
  rw [if_neg hq, hs]

/-- Helper: the no-factor exit of `estimate_for_qtyF`. -/
lemma estimate_for_qtyF_eq_nofactor (env : EnvF) (now : ℚ) (c : Cache) (name : String)
    (qty : ℚ) (unit : String) (hq : ¬qty ≤ 0) {c1 : Cache} {n : ℕ}
    (hs : search_factorF env now c (hint_for name) (fam_arg_of unit)
      = (c1, Except.ok (none, n))) :
    estimate_for_qtyF env now c name qty unit = (c1, Except.ok none) := by
  unfold estimate_for_qtyF
  rw [if_neg hq, hs]

/-- Helper: once a factor document is found, `estimate_for_qtyF` reduces
to the conversion-then-estimate tail. -/
lemma estimate_for_qtyF_eq_found (env : EnvF) (now : ℚ) (c : Cache) (name : String)
    (qty : ℚ) (unit : String) (hq : ¬qty ≤ 0) {doc : Doc} {c1 : Cache} {n : ℕ}
    (hs : search_factorF env now c (hint_for name) (fam_arg_of unit)
      = (c1, Except.ok (some doc, n))) :
    estimate_for_qtyF env now c name qty unit
      = match qty_in_factor_unit name qty unit (factor_unit_of doc) with
        | none => (c1, Except.ok none)
        | some q_conv =>
          match env.estimate doc.activity_id
              (build_params (norm_unit_type doc.unit_type) q_conv.1 (factor_unit_of doc)) with
          | Except.error e => (c1, Except.error e)
          | Except.ok data => (c1, Except.ok (some (data.co2e.getD 0, doc, data))) := by
  unfold estimate_for_qtyF
  rw [if_neg hq, hs]

/-- A concrete environment whose search endpoint always raises and whose
estimate endpoint always succeeds. -/
def env_searchfail : EnvF :=
  ⟨none, "^3", fun _ _ => Except.error (), fun _ _ => Except.ok ⟨some 1⟩⟩

/-- C3 counterexample: `estimate_for_qty` raises even though the provider
estimate call never fails (here it cannot: the estimate oracle always
succeeds) — a failing search GET propagates out uncaught, so a raised
failure is not characterised by the estimate call alone. -/
theorem estimate_raises_without_estimate_failure :
    (estimate_for_qtyF env_searchfail 0 [] "beef" 2 "kg").2 = Except.error ()
    ∧ env_searchfail.estimate (some "a1") (Params.weight 1 "kg") = Except.ok ⟨some 1⟩ :=
  ⟨rfl, rfl⟩

/-- C3 (amended): `estimate_for_qty` raises exactly when a provider HTTP
call fails — either a search GET (whose `raise_for_status` / body-parse
exception propagates out of `search_factor` uncaught) or, with the
search succeeding, the estimate POST (re-raised) — while the enumerated
soft failure modes (non-positive quantity, no factor, unit mismatch)
are returned as an absent result, never thrown. -/
theorem estimate_for_qtyF_raises_iff (env : EnvF) (now : ℚ) (c : Cache) (name : String)
    (qty : ℚ) (unit : String) :
    (estimate_for_qtyF env now c name qty unit).2 = Except.error ()
    ↔ (0 < qty ∧
        ((search_factorF env now c (hint_for name) (fam_arg_of unit)).2 = Except.error ()
          ∨ (∃ doc n q_conv,
              (search_factorF env now c (hint_for name) (fam_arg_of unit)).2
                = Except.ok (some doc, n)
              ∧ qty_in_factor_unit name qty unit (factor_unit_of doc) = some q_conv
              ∧ env.estimate doc.activity_id
                  (build_params (norm_unit_type doc.unit_type) q_conv.1 (factor_unit_of doc))
                = Except.error ()))) := by
  by_cases hq : qty ≤ 0
  · rw [estimate_for_qtyF_eq_nonpos env now c name qty unit hq]
    constructor
    · intro h
      simp at h
    · rintro ⟨h0, -⟩
      exact absurd hq (not_le.mpr h0)
  · have h0 : 0 < qty := not_le.mp hq
    rcases hs : search_factorF env now c (hint_for name) (fam_arg_of unit) with ⟨c1, r⟩
    cases r with
    | error e =>
      cases e
      rw [estimate_for_qtyF_eq_searchfail env now c name qty unit hq hs]
      constructor
      · intro _
        exact ⟨h0, Or.inl rfl⟩
      · intro _
        rfl
    | ok out =>
      rcases out with ⟨docO, n⟩
      cases docO with
      | none =>
        rw [estimate_for_qtyF_eq_nofactor env now c name qty unit hq hs]
        constructor
        · intro h
          simp at h
        · rintro ⟨-, h | ⟨doc, n', q', hdoc, -, -⟩⟩
          · simp at h
          · simp at hdoc
      | some doc =>
        cases hqc : qty_in_factor_unit name qty unit (factor_unit_of doc) with
        | none =>
          have hES : estimate_for_qtyF env now c name qty unit = (c1, Except.ok none) := by
            rw [estimate_for_qtyF_eq_found env now c name qty unit hq hs, hqc]
          rw [hES]
          constructor
          · intro h
            simp at h
          · rintro ⟨-, h | ⟨doc', n', q', hdoc, hq', -⟩⟩
            · simp at h
            · simp at hdoc
              obtain ⟨hdd, -⟩ := hdoc
              subst hdd
              rw [hqc] at hq'
              cases hq'
        | some q' =>
          cases he : env.estimate doc.activity_id
              (build_params (norm_unit_type doc.unit_type) q'.1 (factor_unit_of doc)) with
          | error e =>
            cases e
            have hES : estimate_for_qtyF env now c name qty unit = (c1, Except.error ()) := by
              rw [estimate_for_qtyF_eq_found env now c name qty unit hq hs, hqc]
              show (match env.estimate doc.activity_id
                  (build_params (norm_unit_type doc.unit_type) q'.1 (factor_unit_of doc)) with
                | Except.error e => (c1, Except.error e)
                | Except.ok data => (c1, Except.ok (some (data.co2e.getD 0, doc, data)))) = _
              rw [he]
            rw [hES]
            constructor
            · intro _
              exact ⟨h0, Or.inr ⟨doc, n, q', rfl, hqc, he⟩⟩
            · intro _
              rfl
          | ok data =>
            have hES : estimate_for_qtyF env now c name qty unit
                = (c1, Except.ok (some (data.co2e.getD 0, doc, data))) := by
              rw [estimate_for_qtyF_eq_found env now c name qty unit hq hs, hqc]
              show (match env.estimate doc.activity_id
                  (build_params (norm_unit_type doc.unit_type) q'.1 (factor_unit_of doc)) with
                | Except.error e => (c1, Except.error e)
                | Except.ok d2 => (c1, Except.ok (some (d2.co2e.getD 0, doc, d2)))) = _
              rw [he]
            rw [hES]
            constructor
            · intro h
              simp at h
            · rintro ⟨-, h | ⟨doc', n', q'', hdoc, hq'', he'⟩⟩
              · simp at h
              · simp at hdoc
                obtain ⟨hdd, -⟩ := hdoc
                subst hdd
                rw [hqc] at hq''
                have hqq : q' = q'' := Option.some.inj hq''
                subst hqq
                rw [he] at he'
                simp at he'

/-- Helper: the density bridge never applies to a count-to-mass
conversion, whatever density keys match the name. -/
lemma bridge_volume_mass_each_kg (name : String) (qty : ℚ) :
    bridge_volume_mass name qty "each" "kg" = none := by
  unfold bridge_volume_mass
  rw [show family "each" = "count" from rfl, show family "kg" = "mass" from rfl,
    if_neg (by decide)]
  split
  · rfl
  · rename_i dens heq
    by_cases hz : dens = 0
    · rw [if_pos hz]
    · rw [if_neg hz, if_neg (by decide : ¬("count" = "volume" ∧ "mass" = "mass")),
        if_neg (by decide : ¬("count" = "mass" ∧ "mass" = "volume"))]

/-- A concrete environment echoing the weight sent to the estimate
endpoint back as the response's `co2e`, exposing the converted
quantity. -/
def env_echo : Env :=
  ⟨none, "^3", fun _ _ => [docW],
   fun _ p =>
     match p with
     | Params.weight w _ => Except.ok ⟨some w⟩
     | _ => Except.ok ⟨some 0⟩⟩

/-- The cache state after the "egg tomato" search against `env_echo`. -/
def cacheE : Cache := [(cache_key env_echo "egg tomato" (some "count"), (0, docW))]

/-- C8 counterexample: for the egg-containing name "egg tomato" (which
also matches the average-item-mass key "tomato"), the engine sends the
table-derived mass `6 * 0.12 = 0.72` kg to the provider, not the egg
heuristic's `6 * 0.05 = 0.3` kg — the table takes priority over the
heuristic, contradicting "regardless of whether a table entry
exists". -/
theorem egg_heuristic_table_priority :
    (estimate_for_qty env_echo 0 [] "egg tomato" 6 "each").2
      = Except.ok (some (6 * (12/100), docW, ⟨some (6 * (12/100))⟩))
    ∧ (6 * (12/100) : ℚ) ≠ 6 * (5/100) := by
  constructor
  · have hq : ¬((6 : ℚ) ≤ 0) := by norm_num
    have hs : search_factor env_echo 0 [] (hint_for "egg tomato") (fam_arg_of "each")
        = (some docW, cacheE, 1) := rfl
    have hqc : qty_in_factor_unit "egg tomato" 6 "each" (factor_unit_of docW)
        = some (6 * (12/100), "kg") := by
      rw [show factor_unit_of docW = "kg" from rfl]
      have hb : bridge_each_to_mass "egg tomato" 6 "kg" = some (6 * (12/100), "kg") := by
        simp only [bridge_each_to_mass,
          show avg_item_mass_for "egg tomato" = some (12/100) from rfl]
        norm_num
      simp only [qty_in_factor_unit, show convert_qty 6 "each" "kg" = none from rfl,
        show family "each" = "count" from rfl, hb]
      norm_num
    rw [estimate_for_qty_eq_found env_echo 0 [] "egg tomato" 6 "each" hq hs, hqc]
    rfl
  · norm_num

/-- C8 (amended): the egg heuristic applies the fixed 50 g average egg
mass for count-to-mass conversion only when no average-item-mass table
key occurs in the item name (a table match takes priority); in
particular, for "eggs" (no table match) against a kg factor the engine
sends `6 * 0.05 = 0.3` kg to the provider. -/
theorem egg_heuristic_amended :
    (∀ (name : String) (qty : ℚ), strHasSub (pyLower name) "egg" = true →
        avg_item_mass_for name = none →
        qty_in_factor_unit name qty "each" "kg" = some (qty * (5/100), "kg"))
    ∧ (estimate_for_qty env_echo 0 [] "eggs" 6 "each").2
        = Except.ok (some (6 * (5/100), docW, ⟨some (6 * (5/100))⟩)) := by
  constructor
  · intro name qty hegg havg
    have hbe : bridge_each_to_mass name qty "kg" = none := by
      unfold bridge_each_to_mass
      rw [havg]
    simp only [qty_in_factor_unit,
      show convert_qty qty "each" "kg" = none from rfl,
      show family "each" = "count" from rfl,
      hbe, bridge_volume_mass_each_kg, hegg]
    simp
  · have hq : ¬((6 : ℚ) ≤ 0) := by norm_num
    have hs : search_factor env_echo 0 [] (hint_for "eggs") (fam_arg_of "each")
        = (some docW, [(cache_key env_echo "eggs" (some "count"), (0, docW))], 1) := rfl
    have hqc : qty_in_factor_unit "eggs" 6 "each" (factor_unit_of docW)
        = some (6 * (5/100), "kg") := rfl
    rw [estimate_for_qty_eq_found env_echo 0 [] "eggs" 6 "each" hq hs, hqc]
    rfl

/-- Witness for the amended C8 theorem at name "eggs", quantity 6. -/
theorem egg_heuristic_amended_witness :
    strHasSub (pyLower "eggs") "egg" = true
    ∧ avg_item_mass_for "eggs" = none
    ∧ qty_in_factor_unit "eggs" 6 "each" "kg" = some (6 * (5/100), "kg") :=
  ⟨rfl, rfl, egg_heuristic_amended.1 "eggs" 6 rfl rfl⟩

/-- Helper: one calculator step only appends to the breakdown it is
handed; total and cache do not depend on the accumulated breakdown. -/
lemma compute_step_bd (env : Env) (now t : ℚ) (bd : List Entry) (c : Cache) (it : Item) :
    compute_step env now (t, bd, c) it
      = ((compute_step env now (t, [], c) it).1,
         bd ++ (compute_step env now (t, [], c) it).2.1,
         (compute_step env now (t, [], c) it).2.2) := by
  unfold compute_step
  rcases hr : estimate_for_qty env now c (item_name it) (item_qty it) (item_unit it)
    with ⟨c1, r⟩
  cases r with
  | error e => simp
  | ok o =>
    cases o with
    | none => simp
    | some v =>
      rcases v with ⟨kg, doc, data⟩
      simp

/-- Helper: the calculator fold distributes over the accumulated
breakdown. -/
lemma compute_fold_bd (env : Env) (now : ℚ) (items : List Item) :
    ∀ (t : ℚ) (bd : List Entry) (c : Cache),
    items.foldl (compute_step env now) (t, bd, c)
      = ((items.foldl (compute_step env now) (t, [], c)).1,
         bd ++ (items.foldl (compute_step env now) (t, [], c)).2.1,
         (items.foldl (compute_step env now) (t, [], c)).2.2) := by
  induction items with
  | nil =>
    intro t bd c
    simp
  | cons x xs ih =>
    intro t bd c
    rw [List.foldl_cons, List.foldl_cons]
    rcases hstep : compute_step env now (t, [], c) x with ⟨s1, s2, s3⟩
    have hstep' : compute_step env now (t, bd, c) x = (s1, bd ++ s2, s3) := by
      rw [compute_step_bd env now t bd c x, hstep]
    rw [hstep', ih s1 (bd ++ s2) s3, ih s1 s2 s3]
    simp

/-- C10: `compute_co2` never propagates an exception from
`estimate_for_qty`: a hard provider failure on an item is caught and
recorded as a skipped breakdown entry with `kg_co2 = 0.0`, the item
contributes nothing to the total, and the remaining items are processed
normally (from the cache state the failing call left behind). -/
theorem compute_co2_skips_hard_failures (env : Env) (now : ℚ) (c : Cache) (it : Item)
    (rest : List Item)
    (h : (estimate_for_qty env now c (item_name it) (item_qty it) (item_unit it)).2
      = Except.error ()) :
    compute_co2 env now c (it :: rest)
      = ((compute_co2 env now
            (estimate_for_qty env now c (item_name it) (item_qty it) (item_unit it)).1
            rest).1,
         skip_entry it
           :: (compute_co2 env now
            (estimate_for_qty env now c (item_name it) (item_qty it) (item_unit it)).1
            rest).2.1,
         (compute_co2 env now
            (estimate_for_qty env now c (item_name it) (item_qty it) (item_unit it)).1
            rest).2.2) := by
  rcases hr : estimate_for_qty env now c (item_name it) (item_qty it) (item_unit it)
    with ⟨c1, r⟩
  rw [hr] at h
  simp only at h
  subst h
  have hstep : compute_step env now (0, [], c) it = (0, [skip_entry it], c1) := by
    unfold compute_step
    rw [hr]
    rfl
  unfold compute_co2
  rw [List.foldl_cons, hstep, compute_fold_bd env now rest 0 [skip_entry it] c1]
  simp

/-- A concrete environment whose estimate endpoint always fails. -/
def env_err : Env :=
  ⟨none, "^3", fun _ _ => [docW], fun _ _ => Except.error ()⟩

/-- A concrete well-formed grocery item. -/
def it_beef : Item := ⟨some "beef", some 2, some "kg"⟩

/-- Witness for the C10 theorem: a provider estimate failure on the only
item yields a single skipped entry and total 0. -/
theorem compute_co2_skips_hard_failures_witness :
    (estimate_for_qty env_err 0 [] (item_name it_beef) (item_qty it_beef)
        (item_unit it_beef)).2 = Except.error ()
    ∧ compute_co2 env_err 0 [] [it_beef]
      = ((compute_co2 env_err 0
            (estimate_for_qty env_err 0 [] (item_name it_beef) (item_qty it_beef)
              (item_unit it_beef)).1 []).1,
         skip_entry it_beef
           :: (compute_co2 env_err 0
            (estimate_for_qty env_err 0 [] (item_name it_beef) (item_qty it_beef)
              (item_unit it_beef)).1 []).2.1,
         (compute_co2 env_err 0
            (estimate_for_qty env_err 0 [] (item_name it_beef) (item_qty it_beef)
              (item_unit it_beef)).1 []).2.2) :=
  ⟨rfl, compute_co2_skips_hard_failures env_err 0 [] it_beef [] rfl⟩

end Climatiq
